import Mathlib

/-!
Verification development for a task-tracking bot (sources: `database.py`,
`notifications.py`, `bot.py`, `auth.py`, `reports.py`, `config.py`).

The SQLite database is embedded as an explicit state record `DB`; every
database operation from `database.py` becomes a pure function on `DB`
(returning the new state together with the Python return value).  SQL
timestamps are modelled as `Int` (seconds); `CURRENT_TIMESTAMP` /
`datetime('now')` become an explicit `now : Int` argument.  Nullable SQL
columns are `Option`; Python dict rows that may or may not carry a column
(depending on which SELECT produced them) carry that column as an
`Option (...)`-valued field plus, where the distinction matters, an outer
`Option` recording whether the column was selected at all (absence of a key
raises `KeyError` in Python, modelled with `Except`).

Message dispatch (Telegram) is external to the program state; functions that
branch on delivery outcome take the outcome as an oracle parameter.  Pure
presentation rendering (`utils.format_task`) is taken as a parameter
`fmt : Task → String`: none of the verified properties depend on its output.
-/

namespace TMBot

/-- config.py: NOTIFICATION_CHECK_INTERVAL = 300. -/
def config_NOTIFICATION_CHECK_INTERVAL : Nat := 300

/-- config.py: REMINDER_HOURS_BEFORE = [24, 6, 1]. -/
def config_REMINDER_HOURS_BEFORE : List Nat := [24, 6, 1]

/-- config.py: DISPLAY_TZ_OFFSET_HOURS = 5 (default, TZ_OFFSET_HOURS env unset). -/
def config_DISPLAY_TZ_OFFSET_HOURS : Int := 5

/-- utils.py get_current_tashkent_time: current UTC instant shifted by the
display offset and returned as a naive timestamp. -/
def get_current_tashkent_time (now : Int) : Int :=
  now + config_DISPLAY_TZ_OFFSET_HOURS * 3600

/-- database.py users table row. -/
structure User where
  id : Nat
  telegram_id : Nat
  username : Option String
  first_name : Option String
  last_name : Option String
  role : String
  is_active : Bool
deriving DecidableEq

/-- database.py tasks table row.  status is one of
new / in_progress / completed / overdue / cancelled (SQL CHECK constraint). -/
structure Task where
  id : Nat
  title : String
  description : Option String
  creator_id : Nat
  assignee_id : Option Nat
  status : String
  priority : String
  deadline : Option Int
  created_at : Int
  updated_at : Int
  completed_at : Option Int
deriving DecidableEq

/-- database.py notifications table row (`ntype` stands for the SQL column
`type`, a reserved word in Lean). -/
structure Notification where
  id : Nat
  user_id : Nat
  task_id : Nat
  ntype : String
  message : String
  is_sent : Bool
  scheduled_at : Int
  sent_at : Option Int
deriving DecidableEq

/-- database.py task_history table row. -/
structure HistoryEntry where
  task_id : Nat
  user_id : Nat
  action : String
  old_value : Option String
  new_value : Option String
deriving DecidableEq

/-- The SQLite database state.  `next_notif_id` models the AUTOINCREMENT
counter backing `cursor.lastrowid` for the notifications table. -/
structure DB where
  users : List User
  tasks : List Task
  notifications : List Notification
  history : List HistoryEntry
  next_notif_id : Nat
deriving DecidableEq

/-- The five values admitted by the tasks.status CHECK constraint; an UPDATE
writing any other value raises IntegrityError in sqlite3. -/
def validStatus (s : String) : Bool :=
  ["new", "in_progress", "completed", "overdue", "cancelled"].contains s

/-- database.py get_user_by_telegram_id. -/
def get_user_by_telegram_id (db : DB) (telegram_id : Nat) : Option User :=
  db.users.find? (fun u => u.telegram_id == telegram_id)

/-- database.py get_task_by_id (the joined creator/assignee display columns
are dropped; callers below use only the task columns). -/
def get_task_by_id (db : DB) (task_id : Nat) : Option Task :=
  db.tasks.find? (fun t => t.id == task_id)

/-- database.py _add_task_history: INSERT INTO task_history. -/
def add_task_history (db : DB) (task_id user_id : Nat) (action : String)
    (old_value new_value : Option String) : DB :=
  { db with history := db.history ++ [⟨task_id, user_id, action, old_value, new_value⟩] }

/-- database.py cancel_task: reads the old status (returns False when the
task id does not resolve), then UPDATE tasks SET status = cancelled,
updated_at = now WHERE id = ?, and appends a status_changed history row.
completed_at is not touched. -/
def cancel_task (db : DB) (task_id user_id : Nat) (now : Int) : DB × Bool :=
  match db.tasks.find? (fun t => t.id == task_id) with
  | none => (db, false)
  | some row =>
    let old_status := row.status
    let db := { db with
      tasks := db.tasks.map (fun t =>
        if t.id == task_id then { t with status := "cancelled", updated_at := now } else t) }
    let db := add_task_history db task_id user_id "status_changed" (some old_status) (some "cancelled")
    (db, true)

/-- database.py update_task_status: reads the old status (False when the id
does not resolve), computes completed_at = now iff the new status is
completed (None otherwise), UPDATEs status / updated_at / completed_at, and
appends a status_changed history row.  A status outside the CHECK constraint
makes the UPDATE raise, caught by the except branch returning False. -/
def update_task_status (db : DB) (task_id : Nat) (status : String) (user_id : Nat)
    (now : Int) : DB × Bool :=
  match db.tasks.find? (fun t => t.id == task_id) with
  | none => (db, false)
  | some row =>
    if validStatus status then
      let old_status := row.status
      let completed_at : Option Int := if status == "completed" then some now else none
      let db := { db with
        tasks := db.tasks.map (fun t =>
          if t.id == task_id then
            { t with status := status, updated_at := now, completed_at := completed_at }
          else t) }
      let db := add_task_history db task_id user_id "status_changed" (some old_status) (some status)
      (db, true)
    else (db, false)

/-- database.py update_overdue_tasks, per-row effect: UPDATE tasks SET
status = overdue WHERE deadline < now AND status NOT IN
(completed, cancelled, overdue).  A NULL deadline never satisfies the
comparison. -/
def overdueTransform (now : Int) (t : Task) : Task :=
  if (match t.deadline with | none => false | some d => decide (d < now))
      && !(["completed", "cancelled", "overdue"].contains t.status) then
    { t with status := "overdue", updated_at := now }
  else t

/-- database.py update_overdue_tasks. -/
def update_overdue_tasks (db : DB) (now : Int) : DB :=
  { db with tasks := db.tasks.map (overdueTransform now) }

/-- Row returned by database.py get_overdue_tasks: the task columns plus the
LEFT-JOINed assignee telegram id (NULL when assignee_id is NULL or does not
resolve to a user). -/
structure OverdueRow where
  task : Task
  assignee_telegram_id : Option Nat
deriving DecidableEq

/-- LEFT JOIN of one task row with the assignee user row, as selected by
database.py get_overdue_tasks (NULL when assignee_id is NULL or does not
resolve). -/
def mkOverdueRow (users : List User) (t : Task) : OverdueRow :=
  ⟨t, (users.find? (fun u => t.assignee_id == some u.id)).map (·.telegram_id)⟩

/-- database.py get_overdue_tasks: SELECT ... WHERE deadline < now AND
status NOT IN (completed, cancelled), LEFT JOIN users on assignee_id. -/
def get_overdue_tasks (db : DB) (now : Int) : List OverdueRow :=
  (db.tasks.filter (fun t =>
    (match t.deadline with | none => false | some d => decide (d < now))
      && !(["completed", "cancelled"].contains t.status))).map (mkOverdueRow db.users)

/-- database.py create_notification: INSERT returning lastrowid. -/
def create_notification (db : DB) (user_id task_id : Nat) (notification_type message : String)
    (scheduled_at : Int) : DB × Nat :=
  let nid := db.next_notif_id
  ({ db with
      notifications := db.notifications ++
        [⟨nid, user_id, task_id, notification_type, message, false, scheduled_at, none⟩],
      next_notif_id := nid + 1 }, nid)

/-- database.py mark_notification_sent: UPDATE ... SET is_sent = 1,
sent_at = now WHERE id = ?. -/
def mark_notification_sent (db : DB) (notification_id : Nat) (now : Int) : DB :=
  { db with notifications := db.notifications.map (fun n =>
      if n.id == notification_id then { n with is_sent := true, sent_at := some now } else n) }

/-- database.py get_unsent_notifications_by_task_type: SELECT * WHERE
is_sent = 0 AND task_id = ? AND type = ?. -/
def get_unsent_notifications_by_task_type (db : DB) (task_id : Nat) (notif_type : String) :
    List Notification :=
  db.notifications.filter (fun n => !n.is_sent && n.task_id == task_id && n.ntype == notif_type)

/-- database.py exists_notification_by_task_type: SELECT 1 WHERE task_id = ?
AND type = ? LIMIT 1, regardless of is_sent. -/
def exists_notification_by_task_type (db : DB) (task_id : Nat) (notif_type : String) : Bool :=
  db.notifications.any (fun n => n.task_id == task_id && n.ntype == notif_type)

/-- Row returned by database.py get_pending_notifications: the notification
columns plus the INNER-JOINed recipient telegram id and task title. -/
structure PendingRow where
  notif : Notification
  telegram_id : Nat
  task_title : String
deriving DecidableEq

/-- INNER JOIN of one notification with its recipient user and its task, as
selected by database.py get_pending_notifications (the row is dropped when
either join side or the WHERE clause fails). -/
def pendingRowOf (db : DB) (now : Int) (n : Notification) : Option PendingRow :=
  match db.users.find? (fun u => u.id == n.user_id),
        db.tasks.find? (fun t => t.id == n.task_id) with
  | some u, some t =>
    if !n.is_sent && decide (n.scheduled_at ≤ now) then
      some ⟨n, u.telegram_id, t.title⟩
    else none
  | _, _ => none

/-- database.py get_pending_notifications: notifications with is_sent = 0 and
scheduled_at <= now, INNER JOIN users and tasks, ORDER BY scheduled_at. -/
def get_pending_notifications (db : DB) (now : Int) : List PendingRow :=
  (db.notifications.filterMap (pendingRowOf db now)).mergeSort
    (fun a b => a.notif.scheduled_at ≤ b.notif.scheduled_at)

/-- database.py get_user_stats result row: COUNT is never NULL, but SQL SUM
over an empty row set is NULL, so the three SUM columns are Options. -/
structure UserStats where
  total_tasks : Nat
  completed_tasks : Option Nat
  overdue_tasks : Option Nat
  active_tasks : Option Nat
deriving DecidableEq

/-- SQL SUM aggregate over non-NULL inputs: NULL when there are no rows. -/
def sqlSum (xs : List Nat) : Option Nat :=
  if xs.isEmpty then none else some xs.sum

/-- database.py get_user_stats: COUNT / SUM(CASE ...) over the tasks with the
given assignee. -/
def get_user_stats (db : DB) (user_id : Nat) : UserStats :=
  let rows := db.tasks.filter (fun t => t.assignee_id == some user_id)
  { total_tasks := rows.length
    completed_tasks := sqlSum (rows.map (fun t => if t.status == "completed" then 1 else 0))
    overdue_tasks := sqlSum (rows.map (fun t => if t.status == "overdue" then 1 else 0))
    active_tasks := sqlSum (rows.map (fun t =>
      if t.status == "new" || t.status == "in_progress" then 1 else 0)) }

/-- config.py EMOJIS entries used by the notification texts. -/
def EMOJI_warning : String := "⚠️"

/-- config.py EMOJIS deadline entry. -/
def EMOJI_deadline : String := "⏰"

/-- notifications.py check_overdue_tasks, overdue-alert text: EMOJIS warning,
header, the rendered task, and the closing advice line. -/
def overdue_message (task_text : String) : String :=
  EMOJI_warning ++ " **ЗАДАЧА ПРОСРОЧЕНА!**\n\n" ++ task_text ++
    "\n\nПожалуйста, обновите статус задачи или свяжитесь с руководителем."

/-- notifications.py create_deadline_reminder, reminder text: EMOJIS deadline,
header, the hours-before figure, and the rendered task. -/
def reminder_message (hours_before : Nat) (task_text : String) : String :=
  EMOJI_deadline ++ " **НАПОМИНАНИЕ О ДЕДЛАЙНЕ**\n\n" ++
    "⏰ До завершения задачи осталось **" ++ toString hours_before ++ " часов**!\n\n" ++
    task_text

/-- Loop body of notifications.py check_overdue_tasks for one overdue row:
skip when a deadline-type notification already exists for the task (any sent
state); otherwise, when the row's assignee telegram id is truthy and resolves
to a user, create the deadline notification, dispatch it, and mark it sent.
Dispatch has no database effect; its payload is built from `fmt task`
(utils.format_task with detailed=True). -/
def overdue_sweep_body (fmt : Task → String) (now : Int) (db : DB) (row : OverdueRow) : DB :=
  if exists_notification_by_task_type db row.task.id "deadline" then db
  else
    match row.assignee_telegram_id with
    | none => db
    | some tid =>
      if tid == 0 then db
      else
        match get_user_by_telegram_id db tid with
        | none => db
        | some assignee =>
          let message := overdue_message (fmt row.task)
          let p := create_notification db assignee.id row.task.id "deadline" message
            (get_current_tashkent_time now)
          mark_notification_sent p.1 p.2 now

/-- notifications.py check_overdue_tasks: first update_overdue_tasks, then a
snapshot of get_overdue_tasks is walked with `overdue_sweep_body` (the
existence checks run against the evolving database, the row list does not). -/
def check_overdue_tasks (fmt : Task → String) (db : DB) (now : Int) : DB :=
  let db := update_overdue_tasks db now
  (get_overdue_tasks db now).foldl (overdue_sweep_body fmt now) db

/-- check_overdue_tasks iterated k times in succession (same clock value). -/
def sweepN (fmt : Task → String) (now : Int) : Nat → DB → DB
  | 0, db => db
  | k + 1, db => sweepN fmt now k (check_overdue_tasks fmt db now)

/-- Row returned by database.py get_all_tasks: the task columns plus joined
display names; this SELECT does not include an assignee_telegram_id column,
which is recorded by `has_assignee_telegram_id := false` (a sqlite3.Row dict
raises KeyError on access to a column the SELECT did not produce). -/
structure AllTasksRow where
  task : Task
  creator_name : Option String
  assignee_name : Option String
  has_assignee_telegram_id : Bool
deriving DecidableEq

/-- database.py get_all_tasks with a status filter (the ORDER BY clause only
permutes the rows and is dropped; no property below depends on row order). -/
def get_all_tasks (db : DB) (status : Option String) : List AllTasksRow :=
  (db.tasks.filter (fun t => match status with
    | none => true
    | some s => t.status == s)).map (fun t =>
      ⟨t, (db.users.find? (fun u => u.id == t.creator_id)).map (fun u =>
            u.first_name.getD "" ++ " " ++ u.last_name.getD ""),
          (db.users.find? (fun u => t.assignee_id == some u.id)).map (fun u =>
            u.first_name.getD "" ++ " " ++ u.last_name.getD ""),
          false⟩)

/-- notifications.py create_deadline_reminder: reads
`task[...assignee_telegram_id...]` from the row dict — a KeyError when that
column was not part of the producing SELECT (the error aborts the scheduler
tick before any row is written).  Otherwise: silently return when the id does
not resolve; skip when some unsent reminder notification for the task
contains the lead-time text (Python substring test); else insert the
reminder row scheduled at reminder_time. -/
def create_deadline_reminder (fmt : Task → String) (db : DB) (row : AllTasksRow)
    (hours_before : Nat) (reminder_time : Int) : Except String DB :=
  if !row.has_assignee_telegram_id then
    Except.error "KeyError: assignee_telegram_id"
  else
    match (db.users.find? (fun u => row.task.assignee_id == some u.id)).map (·.telegram_id) with
    | none => Except.ok db
    | some tid =>
      match get_user_by_telegram_id db tid with
      | none => Except.ok db
      | some assignee =>
        let existing := get_unsent_notifications_by_task_type db row.task.id "reminder"
        if existing.any (fun n =>
            decide ((toString hours_before ++ " часов").toList <:+: n.message.toList)) then
          Except.ok db
        else
          let message := reminder_message hours_before (fmt row.task)
          Except.ok (create_notification db assignee.id row.task.id "reminder" message
            reminder_time).1

/-- notifications.py schedule_deadline_reminders: collect active (new then
in_progress) tasks, and for each one having a truthy deadline and assignee id
try every configured lead time whose reminder instant falls inside the
(now, now + 1 hour] window.  An exception from create_deadline_reminder
propagates and aborts the phase (it is raised before anything is written). -/
def schedule_deadline_reminders (fmt : Task → String) (db : DB) (now : Int) :
    Except String DB :=
  let active := get_all_tasks db (some "new") ++ get_all_tasks db (some "in_progress")
  active.foldlM (fun db row =>
    match row.task.deadline, row.task.assignee_id with
    | some dl, some aid =>
      if aid == 0 then Except.ok db
      else
        config_REMINDER_HOURS_BEFORE.foldlM (fun db hours_before =>
          let reminder_time := dl - Int.ofNat hours_before * 3600
          if now < reminder_time && reminder_time ≤ now + 3600 then
            create_deadline_reminder fmt db row hours_before reminder_time
          else Except.ok db) db
    | _, _ => Except.ok db) db

/-- notifications.py check_and_send_notifications: walk the pending snapshot;
per row, attempt delivery (outcome given by the external oracle `sendOk`);
mark the row sent on success, log and continue on failure (the try/except is
inside the loop, so one failure never stops the walk). -/
def check_and_send_notifications (sendOk : PendingRow → Bool) (db : DB) (now : Int) : DB :=
  (get_pending_notifications db now).foldl (fun db row =>
    if sendOk row then mark_notification_sent db row.notif.id now else db) db

/-- Result of the bot.py change_task_status callback handler. -/
inductive ChangeResult where
  | notFound
  | forbidden
  | ok
  | dbError
deriving DecidableEq

/-- Python str.split with a single-character separator, as used by bot.py on
callback data: splits at every occurrence of the separator and keeps empty
pieces. -/
def pySplitAux (sep : Char) (cur : List Char) : List Char → List (List Char)
  | [] => [cur.reverse]
  | c :: rest =>
    if c = sep then cur.reverse :: pySplitAux sep [] rest
    else pySplitAux sep (c :: cur) rest

/-- Python str.split on one separator character. -/
def pySplit (sep : Char) (s : String) : List String :=
  (pySplitAux sep [] s.toList).map (fun cs => ⟨cs⟩)

/-- Python int() on a decimal-digit string — the only shape the keyboards
produce for the id piece of a callback (int() raises on anything else, a
case no producible callback reaches). -/
def pyInt (s : String) : Nat :=
  s.toList.foldl (fun n c => n * 10 + (c.toNat - 48)) 0

/-- bot.py change_task_status, parsing step: task_id = int(parts[2]) of the
underscore-split callback data (a missing piece would raise IndexError, a
case no producible callback reaches). -/
def callback_task_id (data : String) : Nat :=
  pyInt ((pySplit '_' data).getD 2 "")

/-- bot.py change_task_status, parsing step: new_status = parts[3] of the
underscore-split callback data.  The data is "task_status_" ++ id ++ "_" ++
status, and the status value may itself contain an underscore: parts[3] is
then only its first piece, so an in_progress button arrives as "in", while
completed / new / cancelled arrive intact. -/
def callback_new_status (data : String) : String :=
  (pySplit '_' data).getD 3 ""

/-- bot.py change_task_status, body after the parse: resolve the task
(not-found answer otherwise); reject when the actor is neither the assignee
nor an admin; otherwise call database.update_task_status and report its
outcome.  There is no check on the task's current status.  The follow-up
creator notification is dispatch only and leaves the database unchanged. -/
def change_task_status_core (db : DB) (task_id : Nat) (new_status : String) (actor : User)
    (now : Int) : DB × ChangeResult :=
  match get_task_by_id db task_id with
  | none => (db, ChangeResult.notFound)
  | some task =>
    if task.assignee_id != some actor.id && actor.role != "admin" then
      (db, ChangeResult.forbidden)
    else
      let p := update_task_status db task_id new_status actor.id now
      (p.1, if p.2 then ChangeResult.ok else ChangeResult.dbError)

/-- bot.py change_task_status: split the raw callback data on underscores,
take task_id = int(parts[2]) and new_status = parts[3], then run the body. -/
def change_task_status (db : DB) (data : String) (actor : User) (now : Int) :
    DB × ChangeResult :=
  change_task_status_core db (callback_task_id data) (callback_new_status data) actor now

/-- bot.py create_task_detail_keyboard, status-transition buttons offered to
the viewing user: only when the viewer is the assignee, and only from the
statuses new (to in_progress or completed) and in_progress (to completed);
a terminal-status task yields no transition button. -/
def detail_status_buttons (task : Task) (user_id : Nat) : List String :=
  if task.assignee_id == some user_id then
    if task.status == "new" then ["in_progress", "completed"]
    else if task.status == "in_progress" then ["completed"]
    else []
  else []

/-- reports.py _create_statistics_sheet: count of completed tasks. -/
def stats_completed (tasks : List Task) : Nat :=
  (tasks.filter (fun t => t.status == "completed")).length

/-- reports.py _create_statistics_sheet: completion-rate cell
completed_tasks / max(total_tasks, 1) * 100 (Python true division). -/
def statistics_sheet_rate (tasks : List Task) : ℚ :=
  (stats_completed tasks : ℚ) / ((max tasks.length 1 : Nat) : ℚ) * 100

/-- reports.py _create_user_analytics_sheet: per-assignee-group
completion-rate cell completed / max(total, 1) * 100. -/
def user_analytics_rate (group : List Task) : ℚ :=
  ((group.filter (fun t => t.status == "completed")).length : ℚ) /
    ((max group.length 1 : Nat) : ℚ) * 100

/-- notifications.py send_weekly_report, productivity figure:
int(completed_tasks / max(total_tasks, 1) * 100).  When completed_tasks is
NULL (a user with zero assigned rows) the division raises TypeError; the
numeric branch is the truncated percentage (int() truncation of the
non-negative float quotient equals this natural division). -/
def weekly_report_productivity (stats : UserStats) : Except String Nat :=
  match stats.completed_tasks with
  | none => Except.error "TypeError: unsupported operand type for /: NoneType and int"
  | some c => Except.ok (c * 100 / max stats.total_tasks 1)

/-- The core mutations quantified over by the completed_at invariant claim:
changeStatus via database.update_task_status, cancel via
database.cancel_task. -/
inductive CoreOp where
  | change (task_id : Nat) (status : String) (user_id : Nat) (now : Int)
  | cancel (task_id user_id : Nat) (now : Int)
deriving DecidableEq

/-- Whether a CoreOp is a changeStatus operation. -/
def CoreOp.isChange : CoreOp → Bool
  | CoreOp.change _ _ _ _ => true
  | CoreOp.cancel _ _ _ => false

/-- Apply one core operation to the database. -/
def applyCoreOp (db : DB) : CoreOp → DB
  | CoreOp.change tid st uid now => (update_task_status db tid st uid now).1
  | CoreOp.cancel tid uid now => (cancel_task db tid uid now).1

/-- Apply a sequence of core operations left to right. -/
def applyCoreOps (db : DB) (ops : List CoreOp) : DB :=
  ops.foldl applyCoreOp db

/-- Property helper: the spec invariant that completed_at is set exactly on
completed tasks. -/
def CompletedAtInvariant (db : DB) : Prop :=
  ∀ t ∈ db.tasks, (t.completed_at ≠ none ↔ t.status = "completed")

/-- Property helper: number of persisted deadline-type notifications for a
task id, in any sent state. -/
def countDeadline (db : DB) (task_id : Nat) : Nat :=
  (db.notifications.filter (fun n => n.task_id == task_id && n.ntype == "deadline")).length

/-- Property helper: number of persisted reminder-type notifications for a
task id whose message mentions the given lead time (the textual dedup key). -/
def countReminderLead (db : DB) (task_id : Nat) (hours_before : Nat) : Nat :=
  (db.notifications.filter (fun n => n.task_id == task_id && n.ntype == "reminder" &&
    decide ((toString hours_before ++ " часов").toList <:+: n.message.toList))).length

/-- Property helper: look a notification up by id. -/
def notifById (db : DB) (notification_id : Nat) : Option Notification :=
  db.notifications.find? (fun n => n.id == notification_id)

/-- Property helper: the overdue-row creatability test mirrored by
overdue_sweep_body after the existence check — a truthy assignee telegram id
that resolves to a user. -/
def creatableRow (users : List User) (row : OverdueRow) : Bool :=
  match row.assignee_telegram_id with
  | none => false
  | some tid => tid != 0 && (users.find? (fun u => u.telegram_id == tid)).isSome

/-- Pointwise decidability of the completed_at invariant. -/
instance (db : DB) : Decidable (CompletedAtInvariant db) :=
  List.decidableBAll _ db.tasks

/-- A map by an element-wise function that preserves a predicate commutes
with find?. -/
theorem find?_map_preserve {α : Type} (g : α → α) (p : α → Bool)
    (hp : ∀ a, p (g a) = p a) (l : List α) :
    (l.map g).find? p = (l.find? p).map g := by
  rw [List.find?_map]
  have h : p ∘ g = p := funext hp
  rw [h]

/-- The per-task cancel update keeps every id. -/
theorem cancel_map_pred (tid : Nat) (now : Int) (t : Task) :
    ((if t.id == tid then { t with status := "cancelled", updated_at := now } else t).id == tid)
      = (t.id == tid) := by
  by_cases h : t.id == tid <;> simp [h]

/-- Closed form of cancel_task on a resolving task id. -/
theorem cancel_task_eq (db : DB) (tid uid : Nat) (now : Int) (row : Task)
    (hrow : db.tasks.find? (fun t => t.id == tid) = some row) :
    cancel_task db tid uid now =
      ({ db with
          tasks := db.tasks.map (fun t =>
            if t.id == tid then { t with status := "cancelled", updated_at := now } else t)
          history := db.history ++
            [⟨tid, uid, "status_changed", some row.status, some "cancelled"⟩] }, true) := by
  unfold cancel_task
  rw [hrow]
  rfl

/-- cancel_task does not touch any completed_at column. -/
theorem cancel_task_preserves_completed_at (db : DB) (tid uid : Nat) (now : Int) :
    (cancel_task db tid uid now).1.tasks.map Task.completed_at
      = db.tasks.map Task.completed_at := by
  unfold cancel_task
  cases hf : db.tasks.find? (fun t => t.id == tid) with
  | none => rfl
  | some row =>
    simp only [add_task_history, List.map_map]
    apply List.map_congr_left
    intro t _
    by_cases h : t.id == tid <;> simp [h, Function.comp]

/-- update_task_status preserves the completed_at-iff-completed invariant. -/
theorem update_task_status_preserves_invariant (db : DB) (tid : Nat) (st : String)
    (uid : Nat) (now : Int) (hinv : CompletedAtInvariant db) :
    CompletedAtInvariant (update_task_status db tid st uid now).1 := by
  unfold update_task_status
  cases hf : db.tasks.find? (fun t => t.id == tid) with
  | none => exact hinv
  | some row =>
    by_cases hv : validStatus st
    · simp only [hv, if_true, add_task_history]
      intro t ht
      simp only [List.mem_map] at ht
      obtain ⟨u, hu, rfl⟩ := ht
      by_cases hid : u.id == tid
      · simp only [hid, if_true]
        by_cases hc : st == "completed"
        · simp_all
        · simp_all
      · simp only [hid, if_false]
        exact hinv u hu
    · simp only [hv, if_false]
      exact hinv

/-- C1 (amended): a sequence consisting only of changeStatus operations
preserves the invariant that completed_at is set exactly on completed tasks,
because update_task_status writes completed_at = now when the new status is
completed and NULL otherwise; cancel_task however never touches completed_at,
so cancelling a previously completed task leaves completed_at set while the
status becomes cancelled. -/
theorem c1_completed_at_invariant_amended (db : DB) (ops : List CoreOp) (tid uid : Nat)
    (now : Int) (hinv : CompletedAtInvariant db)
    (hops : ∀ op ∈ ops, op.isChange = true) :
    CompletedAtInvariant (applyCoreOps db ops) ∧
    (cancel_task db tid uid now).1.tasks.map Task.completed_at
      = db.tasks.map Task.completed_at := by
  refine ⟨?_, cancel_task_preserves_completed_at db tid uid now⟩
  induction ops generalizing db with
  | nil => exact hinv
  | cons op rest ih =>
    have hop := hops op (List.mem_cons_self op rest)
    have hrest : ∀ o ∈ rest, o.isChange = true := fun o ho => hops o (List.mem_cons_of_mem op ho)
    cases op with
    | change t s u n =>
      exact ih ((update_task_status db t s u n).1)
        (update_task_status_preserves_invariant db t s u n hinv) hrest
    | cancel t u n => simp [CoreOp.isChange] at hop

/-- Example database for the C1 counterexample: a single fresh task. -/
def c1db : DB :=
  { users := []
    tasks := [⟨1, "t", none, 1, some 1, "new", "medium", none, 0, 0, none⟩]
    notifications := []
    history := []
    next_notif_id := 1 }

/-- C1 (counterexample): the invariant holds initially and the two applied
operations are exactly the claim's core operations, yet after
changeStatus(completed) followed by cancel the task has status cancelled
with completed_at still set — the claim that cancellation of a previously
completed task leaves completed_at null is false on the code. -/
theorem c1_counterexample :
    CompletedAtInvariant c1db ∧
    ¬ CompletedAtInvariant (applyCoreOps c1db
        [CoreOp.change 1 "completed" 1 10, CoreOp.cancel 1 1 20]) := by
  constructor
  · decide
  · decide

/-- Witness for the amended C1 theorem at a concrete input. -/
theorem c1_completed_at_invariant_amended_witness :
    CompletedAtInvariant (applyCoreOps c1db [CoreOp.change 1 "completed" 1 10]) ∧
    (cancel_task c1db 1 1 20).1.tasks.map Task.completed_at
      = c1db.tasks.map Task.completed_at :=
  c1_completed_at_invariant_amended c1db [CoreOp.change 1 "completed" 1 10] 1 1 20
    (by decide) (by decide)

/-- C5: cancellation is unconditional and idempotent — on an existing task
the first cancel succeeds and sets status cancelled whatever the prior
status, and a second cancel also succeeds (no exception path is taken) and
leaves the task in the same cancelled terminal status. -/
theorem c5_cancel_idempotent (db : DB) (tid uid1 uid2 : Nat) (now1 now2 : Int)
    (h : (db.tasks.find? (fun t => t.id == tid)).isSome = true) :
    (cancel_task db tid uid1 now1).2 = true ∧
    (cancel_task (cancel_task db tid uid1 now1).1 tid uid2 now2).2 = true ∧
    (∀ t ∈ (cancel_task db tid uid1 now1).1.tasks, t.id = tid → t.status = "cancelled") ∧
    (∀ t ∈ (cancel_task (cancel_task db tid uid1 now1).1 tid uid2 now2).1.tasks,
      t.id = tid → t.status = "cancelled") := by
  obtain ⟨row, hrow⟩ := Option.isSome_iff_exists.mp h
  have h1 := cancel_task_eq db tid uid1 now1 row hrow
  have hmem : ∀ (now : Int) (l : List Task), ∀ t ∈ l.map (fun t =>
      if t.id == tid then { t with status := "cancelled", updated_at := now } else t),
      t.id = tid → t.status = "cancelled" := by
    intro now l t ht htid
    simp only [List.mem_map] at ht
    obtain ⟨u, _, rfl⟩ := ht
    by_cases hid : u.id == tid
    · simp [hid]
    · simp only [hid, if_false] at htid ⊢
      simp_all
  have h2find : (cancel_task db tid uid1 now1).1.tasks.find? (fun t => t.id == tid)
      = some { row with status := "cancelled", updated_at := now1 } := by
    rw [h1]
    show (db.tasks.map _).find? _ = _
    rw [find?_map_preserve _ _ (cancel_map_pred tid now1), hrow]
    have hrid := List.find?_some hrow
    simp only [beq_iff_eq] at hrid
    simp [hrid]
  have h2 := cancel_task_eq (cancel_task db tid uid1 now1).1 tid uid2 now2 _ h2find
  refine ⟨?_, ?_, ?_, ?_⟩
  · rw [h1]
  · rw [h2]
  · rw [h1]
    exact hmem now1 db.tasks
  · rw [h2]
    exact hmem now2 _

/-- Example database for the C5 witness: one completed task. -/
def c5db : DB :=
  { users := []
    tasks := [⟨7, "t", none, 1, some 2, "completed", "high", some 50, 0, 0, some 40⟩]
    notifications := []
    history := []
    next_notif_id := 1 }

/-- Witness for C5 at a concrete input. -/
theorem c5_cancel_idempotent_witness :
    (cancel_task c5db 7 1 100).2 = true ∧
    (cancel_task (cancel_task c5db 7 1 100).1 7 1 200).2 = true ∧
    (∀ t ∈ (cancel_task c5db 7 1 100).1.tasks, t.id = 7 → t.status = "cancelled") ∧
    (∀ t ∈ (cancel_task (cancel_task c5db 7 1 100).1 7 1 200).1.tasks,
      t.id = 7 → t.status = "cancelled") :=
  c5_cancel_idempotent c5db 7 1 1 100 200 (by decide)

/-- C10: a user with zero assigned tasks gets total_tasks = 0 but NULL (not
0) for the three SUM aggregates, and the weekly report's productivity
formula, which divides completed_tasks, fails on the non-numeric value. -/
theorem c10_user_stats_null_sums (db : DB) (uid : Nat)
    (h : ∀ t ∈ db.tasks, t.assignee_id ≠ some uid) :
    get_user_stats db uid = ⟨0, none, none, none⟩ ∧
    weekly_report_productivity (get_user_stats db uid) =
      Except.error "TypeError: unsupported operand type for /: NoneType and int" := by
  have hfil : db.tasks.filter (fun t => t.assignee_id == some uid) = [] := by
    rw [List.filter_eq_nil_iff]
    intro t ht
    simpa using h t ht
  have hstats : get_user_stats db uid = ⟨0, none, none, none⟩ := by
    simp [get_user_stats, hfil, sqlSum]
  exact ⟨hstats, by rw [hstats]; rfl⟩

/-- Example database for the C10 witness: the only task belongs to user 2. -/
def c10db : DB :=
  { users := [⟨1, 100, none, some "A", some "B", "user", true⟩]
    tasks := [⟨1, "t", none, 1, some 2, "new", "medium", none, 0, 0, none⟩]
    notifications := []
    history := []
    next_notif_id := 1 }

/-- Witness for C10 at a concrete input. -/
theorem c10_user_stats_null_sums_witness :
    get_user_stats c10db 1 = ⟨0, none, none, none⟩ ∧
    weekly_report_productivity (get_user_stats c10db 1) =
      Except.error "TypeError: unsupported operand type for /: NoneType and int" :=
  c10_user_stats_null_sums c10db 1 (by decide)

/-- C7: both report sheets compute the completion rate as
completed / max(total, 1) * 100; the max(..., 1) floor keeps the denominator
nonzero for every snapshot list, and the rate on an empty snapshot (zero
tasks) is 0, not a division error. -/
theorem c7_completion_rate_guarded :
    statistics_sheet_rate [] = 0 ∧
    (∀ tasks : List Task, ((max tasks.length 1 : Nat) : ℚ) ≠ 0) ∧
    (∀ tasks : List Task,
      statistics_sheet_rate tasks * ((max tasks.length 1 : Nat) : ℚ) =
        (stats_completed tasks : ℚ) * 100) ∧
    (∀ group : List Task,
      user_analytics_rate group * ((max group.length 1 : Nat) : ℚ) =
        ((group.filter (fun t => t.status == "completed")).length : ℚ) * 100) := by
  have hden : ∀ l : List Task, ((max l.length 1 : Nat) : ℚ) ≠ 0 := by
    intro l
    exact Nat.cast_ne_zero.mpr (by omega)
  refine ⟨?_, hden, ?_, ?_⟩
  · simp [statistics_sheet_rate, stats_completed]
  · intro tasks
    have hd := hden tasks
    rw [statistics_sheet_rate]
    field_simp
  · intro group
    have hd := hden group
    rw [user_analytics_rate]
    field_simp

/-- Closed form of update_task_status on a resolving task id and a status
accepted by the CHECK constraint. -/
theorem update_task_status_eq (db : DB) (tid : Nat) (st : String) (uid : Nat) (now : Int)
    (row : Task) (hrow : db.tasks.find? (fun t => t.id == tid) = some row)
    (hv : validStatus st = true) :
    update_task_status db tid st uid now =
      ({ db with
          tasks := db.tasks.map (fun t =>
            if t.id == tid then
              { t with
                  status := st
                  updated_at := now
                  completed_at := if st == "completed" then some now else none }
            else t)
          history := db.history ++
            [⟨tid, uid, "status_changed", some row.status, some st⟩] }, true) := by
  unfold update_task_status
  rw [hrow]
  simp only [hv, if_true]
  rfl

/-- After the targeted status update, every task carrying the target id has
the new status. -/
theorem mem_update_status (l : List Task) (tid : Nat) (st : String) (ca : Option Int)
    (now : Int) :
    ∀ t ∈ l.map (fun t =>
      if t.id == tid then { t with status := st, updated_at := now, completed_at := ca }
      else t), t.id = tid → t.status = st := by
  intro t ht htid
  simp only [List.mem_map] at ht
  obtain ⟨u, _, rfl⟩ := ht
  by_cases hid : u.id == tid
  · simp [hid]
  · simp only [hid, if_false] at htid ⊢
    simp_all

/-- The handler applied to callback data with known parsed components. -/
theorem change_task_status_parsed (db : DB) (data : String) (tid : Nat) (st : String)
    (actor : User) (now : Int)
    (hid : callback_task_id data = tid) (hst : callback_new_status data = st) :
    change_task_status db data actor now = change_task_status_core db tid st actor now := by
  unfold change_task_status
  rw [hid, hst]

/-- C4: for a non-admin actor the status-change handler mutates the task and
appends a status_changed history row exactly when the actor is the task's
assignee; an actor who is neither admin nor assignee gets the Forbidden
outcome and the database is returned unchanged.  The request arrives as raw
callback data; tid and new_status name its parsed components. -/
theorem c4_worker_authorization (db : DB) (data : String) (tid : Nat) (new_status : String)
    (actor : User) (now : Int) (task : Task)
    (hid : callback_task_id data = tid)
    (hst : callback_new_status data = new_status)
    (hrole : actor.role ≠ "admin")
    (hfind : get_task_by_id db tid = some task)
    (hvalid : validStatus new_status = true) :
    (task.assignee_id ≠ some actor.id →
      change_task_status db data actor now = (db, ChangeResult.forbidden)) ∧
    (task.assignee_id = some actor.id →
      (change_task_status db data actor now).2 = ChangeResult.ok ∧
      (∀ t ∈ (change_task_status db data actor now).1.tasks,
        t.id = tid → t.status = new_status) ∧
      (change_task_status db data actor now).1.history =
        db.history ++ [⟨tid, actor.id, "status_changed", some task.status, some new_status⟩]) := by
  rw [change_task_status_parsed db data tid new_status actor now hid hst]
  constructor
  · intro hne
    unfold change_task_status_core
    rw [hfind]
    have hguard : (task.assignee_id != some actor.id && actor.role != "admin") = true := by
      simp [bne_iff_ne, hne, hrole]
    simp [hguard]
  · intro heq
    have hguard : (task.assignee_id != some actor.id && actor.role != "admin") = false := by
      simp [bne_iff_ne, heq]
    have hupd := update_task_status_eq db tid new_status actor.id now task hfind hvalid
    have hcts : change_task_status_core db tid new_status actor now =
        ((update_task_status db tid new_status actor.id now).1, ChangeResult.ok) := by
      unfold change_task_status_core
      rw [hfind]
      simp [hguard, hupd]
    refine ⟨by rw [hcts], ?_, ?_⟩
    · rw [hcts]
      simp only [hupd]
      exact mem_update_status db.tasks tid new_status _ now
    · rw [hcts]
      simp only [hupd]

/-- Example database for the C4 witness: one task assigned to worker 2. -/
def c4db : DB :=
  { users := []
    tasks := [⟨1, "t", none, 1, some 2, "new", "medium", none, 0, 0, none⟩]
    notifications := []
    history := []
    next_notif_id := 1 }

/-- Worker actor (id 3) distinct from the assignee, used in the C4 witness. -/
def c4actor : User := ⟨3, 300, none, some "W", some "W", "user", true⟩

/-- Witness for C4 at a concrete input (the forbidden branch applied to an
actor who is neither admin nor assignee, on a real stale-button payload). -/
theorem c4_worker_authorization_witness :
    change_task_status c4db "task_status_1_completed" c4actor 0 =
      (c4db, ChangeResult.forbidden) :=
  (c4_worker_authorization c4db "task_status_1_completed" 1 "completed" c4actor 0
    ⟨1, "t", none, 1, some 2, "new", "medium", none, 0, 0, none⟩
    (by decide) (by decide) (by decide) (by decide) (by decide)).1 (by decide)

/-- Example database for the C3 counterexample: a cancelled task assigned to
worker 2. -/
def c3db : DB :=
  { users := [⟨2, 200, none, some "W", some "W", "user", true⟩]
    tasks := [⟨1, "t", none, 1, some 2, "cancelled", "medium", none, 0, 0, none⟩]
    notifications := []
    history := []
    next_notif_id := 1 }

/-- The non-admin assignee of the task in c3db. -/
def c3actor : User := ⟨2, 200, none, some "W", some "W", "user", true⟩

/-- C3 (counterexample): an ordinary (non-admin) status-change request by the
assignee — the payload of a stale completed button, which survives the
parts[3] parse intact — on a task in the terminal status cancelled is
accepted by the handler and does change the status: the handler has no
terminal-state guard, so the claim is false on the code. -/
theorem c3_counterexample :
    (get_task_by_id c3db 1).map Task.status = some "cancelled" ∧
    c3actor.role ≠ "admin" ∧
    (change_task_status c3db "task_status_1_completed" c3actor 0).2 = ChangeResult.ok ∧
    (get_task_by_id (change_task_status c3db "task_status_1_completed" c3actor 0).1 1).map
      Task.status = some "completed" := by
  refine ⟨by decide, by decide, by decide, by decide⟩

/-- C3 (amended): terminal statuses are shielded only at the presentation
layer — the detail keyboard offers no status-transition button for a
completed or cancelled task — while the status-change handler itself has no
terminal-state guard: an authorized (here assignee) request whose status
piece survives the parts[3] parse, such as a stale completed button, is
accepted on a terminal task and changes the status unconditionally.  An
in_progress button's payload is truncated by the parse to "in" and fails
the status CHECK constraint, leaving the task unchanged — a parsing
accident, not a terminal-state rejection. -/
theorem c3_terminal_amended (db : DB) (tid : Nat) (actor : User) (now : Int) (task : Task)
    (dataC dataI : String)
    (hidC : callback_task_id dataC = tid)
    (hstC : callback_new_status dataC = "completed")
    (hidI : callback_task_id dataI = tid)
    (hstI : callback_new_status dataI = "in")
    (hfind : get_task_by_id db tid = some task)
    (hterm : task.status = "completed" ∨ task.status = "cancelled")
    (hassignee : task.assignee_id = some actor.id) :
    detail_status_buttons task actor.id = [] ∧
    (change_task_status db dataC actor now).2 = ChangeResult.ok ∧
    (∀ t ∈ (change_task_status db dataC actor now).1.tasks,
      t.id = tid → t.status = "completed") ∧
    change_task_status db dataI actor now = (db, ChangeResult.dbError) := by
  have hguard : (task.assignee_id != some actor.id && actor.role != "admin") = false := by
    simp [bne_iff_ne, hassignee]
  have hupd := update_task_status_eq db tid "completed" actor.id now task hfind (by decide)
  have hcore : change_task_status_core db tid "completed" actor now =
      ((update_task_status db tid "completed" actor.id now).1, ChangeResult.ok) := by
    unfold change_task_status_core
    rw [hfind]
    simp [hguard, hupd]
  have hvin : validStatus "in" = false := by decide
  have hfind' : db.tasks.find? (fun t => t.id == tid) = some task := hfind
  have hinvalid : update_task_status db tid "in" actor.id now = (db, false) := by
    unfold update_task_status
    rw [hfind']
    simp [hvin]
  have hcoreI : change_task_status_core db tid "in" actor now = (db, ChangeResult.dbError) := by
    unfold change_task_status_core
    rw [hfind]
    simp [hguard, hinvalid]
  refine ⟨?_, ?_, ?_, ?_⟩
  · unfold detail_status_buttons
    rcases hterm with h | h <;> simp [h, hassignee]
  · rw [change_task_status_parsed db dataC tid "completed" actor now hidC hstC, hcore]
  · rw [change_task_status_parsed db dataC tid "completed" actor now hidC hstC, hcore]
    simp only [hupd]
    exact mem_update_status db.tasks tid "completed" _ now
  · rw [change_task_status_parsed db dataI tid "in" actor now hidI hstI, hcoreI]

/-- Witness for the amended C3 theorem at a concrete input: the real button
payloads task_status_1_completed and task_status_1_in_progress on the
cancelled task of c3db. -/
theorem c3_terminal_amended_witness :
    detail_status_buttons ⟨1, "t", none, 1, some 2, "cancelled", "medium", none, 0, 0, none⟩ 2
      = [] ∧
    (change_task_status c3db "task_status_1_completed" c3actor 0).2 = ChangeResult.ok ∧
    (∀ t ∈ (change_task_status c3db "task_status_1_completed" c3actor 0).1.tasks,
      t.id = 1 → t.status = "completed") ∧
    change_task_status c3db "task_status_1_in_progress" c3actor 0 =
      (c3db, ChangeResult.dbError) :=
  c3_terminal_amended c3db 1 c3actor 0
    ⟨1, "t", none, 1, some 2, "cancelled", "medium", none, 0, 0, none⟩
    "task_status_1_completed" "task_status_1_in_progress"
    (by decide) (by decide) (by decide) (by decide) (by decide) (Or.inr rfl) (by decide)

/-- Example database for the C6 code-bug theorem: one user and one active
assigned task whose 24-hour reminder instant falls inside the one-hour
scheduling window at now = 0. -/
def c6db : DB :=
  { users := [⟨1, 100, none, some "A", some "B", "user", true⟩]
    tasks := [⟨1, "t", none, 1, some 1, "new", "medium", some 90000, 0, 0, none⟩]
    notifications := []
    history := []
    next_notif_id := 1 }

/-- C6 (code bug): the rows handed to the reminder phase come from
get_all_tasks, whose SELECT has no assignee_telegram_id column, yet
create_deadline_reminder reads exactly that key from the row — so the first
task that reaches the lead-time window raises KeyError before the dedup
check or the INSERT can run, the phase aborts, and no Reminder notification
is ever created. -/
theorem c6_reminder_keyerror :
    (∀ row ∈ get_all_tasks c6db (some "new"), row.has_assignee_telegram_id = false) ∧
    schedule_deadline_reminders (fun _ => "") c6db 0 =
      Except.error "KeyError: assignee_telegram_id" := by
  exact ⟨by decide, by rfl⟩

/-- The sweep body never changes the users table. -/
theorem overdue_sweep_body_users (fmt : Task → String) (now : Int) (db : DB)
    (row : OverdueRow) :
    (overdue_sweep_body fmt now db row).users = db.users := by
  unfold overdue_sweep_body
  split
  · rfl
  · split
    · rfl
    · split
      · rfl
      · split
        · rfl
        · simp [create_notification, mark_notification_sent]

/-- The sweep body never changes the tasks table. -/
theorem overdue_sweep_body_tasks (fmt : Task → String) (now : Int) (db : DB)
    (row : OverdueRow) :
    (overdue_sweep_body fmt now db row).tasks = db.tasks := by
  unfold overdue_sweep_body
  split
  · rfl
  · split
    · rfl
    · split
      · rfl
      · split
        · rfl
        · simp [create_notification, mark_notification_sent]

/-- Marking a notification sent changes neither its task id nor its type,
hence no per-task deadline count. -/
theorem countDeadline_mark (db : DB) (nid : Nat) (now : Int) (tid : Nat) :
    countDeadline (mark_notification_sent db nid now) tid = countDeadline db tid := by
  unfold countDeadline mark_notification_sent
  rw [List.filter_map, List.length_map]
  congr 1
  apply List.filter_congr
  intro n _
  by_cases h : n.id = nid <;> simp [h]

/-- Inserting a notification bumps the deadline count of exactly its own
task id and type. -/
theorem countDeadline_create (db : DB) (uid tsk : Nat) (ntp msg : String) (sched : Int)
    (tid : Nat) :
    countDeadline (create_notification db uid tsk ntp msg sched).1 tid =
      countDeadline db tid + (if tsk = tid ∧ ntp = "deadline" then 1 else 0) := by
  unfold countDeadline create_notification
  rw [List.filter_append, List.length_append]
  congr 1
  by_cases h : tsk = tid ∧ ntp = "deadline"
  · simp [h]
  · rw [if_neg h]
    rw [List.length_eq_zero, List.filter_eq_nil_iff]
    intro n hn
    simp only [List.mem_singleton] at hn
    subst hn
    simp only [Bool.and_eq_true, beq_iff_eq]
    exact fun hc => h ⟨hc.1, hc.2⟩

/-- The persisted-existence check is exactly a nonzero deadline count. -/
theorem exists_iff_countDeadline (db : DB) (tid : Nat) :
    exists_notification_by_task_type db tid "deadline" = true ↔ countDeadline db tid ≠ 0 := by
  unfold exists_notification_by_task_type countDeadline
  rw [List.any_eq_true, Ne, List.length_eq_zero, List.filter_eq_nil_iff]
  push_neg
  constructor
  · rintro ⟨n, hn, hp⟩
    exact ⟨n, hn, by simp [hp]⟩
  · rintro ⟨n, hn, hp⟩
    exact ⟨n, hn, by simpa using hp⟩

/-- Effect of one sweep-body step on the deadline count of a fixed task id:
the count bumps from zero to one exactly when the row is about this task and
its assignee resolves, and is untouched in every other case. -/
theorem overdue_sweep_body_count (fmt : Task → String) (now : Int) (db : DB)
    (row : OverdueRow) (tid : Nat) :
    countDeadline (overdue_sweep_body fmt now db row) tid =
      if countDeadline db row.task.id = 0 ∧ creatableRow db.users row = true ∧
          row.task.id = tid then
        countDeadline db tid + 1
      else countDeadline db tid := by
  cases hex : exists_notification_by_task_type db row.task.id "deadline" with
  | true =>
    have hc : countDeadline db row.task.id ≠ 0 := (exists_iff_countDeadline db _).mp hex
    unfold overdue_sweep_body
    rw [hex]
    simp [hc]
  | false =>
    have hc : countDeadline db row.task.id = 0 := by
      by_contra hne
      have hcontr := (exists_iff_countDeadline db row.task.id).mpr hne
      rw [hex] at hcontr
      exact Bool.false_ne_true hcontr
    unfold overdue_sweep_body
    rw [hex]
    simp only [Bool.false_eq_true, if_false]
    cases hat : row.assignee_telegram_id with
    | none =>
      have hcrf : creatableRow db.users row = false := by
        unfold creatableRow
        rw [hat]
      simp [hcrf, hc]
    | some tid0 =>
      by_cases h0 : tid0 = 0
      · have hcrf : creatableRow db.users row = false := by
          unfold creatableRow
          rw [hat]
          simp [h0]
        simp [h0, hcrf, hc]
      · have hb : ¬((tid0 == 0) = true) := by simpa using h0
        dsimp only
        rw [if_neg hb]
        cases hlk : get_user_by_telegram_id db tid0 with
        | none =>
          have hcrf : creatableRow db.users row = false := by
            unfold creatableRow
            rw [hat]
            unfold get_user_by_telegram_id at hlk
            simp [hlk]
          simp [hcrf, hc]
        | some assignee =>
          have hcr : creatableRow db.users row = true := by
            unfold creatableRow
            rw [hat]
            unfold get_user_by_telegram_id at hlk
            simp [hlk, h0]
          dsimp only
          rw [countDeadline_mark, countDeadline_create]
          by_cases hid : row.task.id = tid
          · rw [hid] at hc
            simp [hid, hc, hcr]
          · simp [hid, hc, hcr]

/-- Effect of the whole sweep walk on the deadline count of a fixed task id:
a zero count becomes one exactly when some walked row is about this task and
its assignee resolves; a nonzero count is never changed. -/
theorem sweep_fold_count (fmt : Task → String) (now : Int) (rows : List OverdueRow)
    (db : DB) (tid : Nat) :
    countDeadline (rows.foldl (overdue_sweep_body fmt now) db) tid =
      if countDeadline db tid = 0 ∧
          ∃ row ∈ rows, row.task.id = tid ∧ creatableRow db.users row = true then 1
      else countDeadline db tid := by
  induction rows generalizing db with
  | nil => simp
  | cons r rest ih =>
    rw [List.foldl_cons, ih, overdue_sweep_body_users, overdue_sweep_body_count]
    by_cases hzero : countDeadline db tid = 0
    · by_cases hr : r.task.id = tid ∧ creatableRow db.users r = true
      · have hcond : countDeadline db r.task.id = 0 ∧ creatableRow db.users r = true ∧
            r.task.id = tid := ⟨by rw [hr.1]; exact hzero, hr.2, hr.1⟩
        rw [if_pos hcond, hzero]
        rw [if_neg (fun hx => absurd hx.1 (by omega))]
        rw [if_pos ⟨rfl, r, List.mem_cons_self r rest, hr.1, hr.2⟩]
      · have hcond : ¬(countDeadline db r.task.id = 0 ∧ creatableRow db.users r = true ∧
            r.task.id = tid) := by
          rintro ⟨_, hcr, hid⟩
          exact hr ⟨hid, hcr⟩
        rw [if_neg hcond]
        by_cases hrest : ∃ row ∈ rest, row.task.id = tid ∧ creatableRow db.users row = true
        · obtain ⟨row, hm, hrow⟩ := hrest
          rw [if_pos ⟨hzero, row, hm, hrow⟩]
          rw [if_pos ⟨hzero, row, List.mem_cons_of_mem r hm, hrow⟩]
        · have hcons : ¬(countDeadline db tid = 0 ∧
              ∃ row ∈ r :: rest, row.task.id = tid ∧ creatableRow db.users row = true) := by
            rintro ⟨_, row, hm, hrow⟩
            rcases List.mem_cons.mp hm with rfl | hm2
            · exact hr ⟨hrow.1, hrow.2⟩
            · exact hrest ⟨row, hm2, hrow⟩
          rw [if_neg (fun hx => hrest hx.2), if_neg hcons]
    · have hcond : ¬(countDeadline db r.task.id = 0 ∧ creatableRow db.users r = true ∧
          r.task.id = tid) := by
        rintro ⟨hz, _, hid⟩
        rw [hid] at hz
        exact hzero hz
      rw [if_neg hcond]
      rw [if_neg fun hx => hzero hx.1, if_neg fun hx => hzero hx.1]

/-- The sweep walk never changes the tasks table. -/
theorem sweep_fold_tasks (fmt : Task → String) (now : Int) (rows : List OverdueRow)
    (db : DB) :
    (rows.foldl (overdue_sweep_body fmt now) db).tasks = db.tasks := by
  induction rows generalizing db with
  | nil => rfl
  | cons r rest ih => rw [List.foldl_cons, ih, overdue_sweep_body_tasks]

/-- After a deadline sweep the tasks table is exactly the overdue-flip image
of the previous one. -/
theorem check_overdue_tasks_tasks (fmt : Task → String) (db : DB) (now : Int) :
    (check_overdue_tasks fmt db now).tasks = db.tasks.map (overdueTransform now) := by
  unfold check_overdue_tasks
  rw [sweep_fold_tasks]
  rfl

/-- Effect of one whole deadline sweep on the deadline count of a task id. -/
theorem check_overdue_count (fmt : Task → String) (db : DB) (now : Int) (tid : Nat) :
    countDeadline (check_overdue_tasks fmt db now) tid =
      if countDeadline db tid = 0 ∧
          ∃ row ∈ get_overdue_tasks (update_overdue_tasks db now) now,
            row.task.id = tid ∧ creatableRow db.users row = true then 1
      else countDeadline db tid := by
  unfold check_overdue_tasks
  rw [sweep_fold_count]
  rfl

/-- The overdue flip keeps the task id. -/
theorem overdueTransform_id (now : Int) (t : Task) :
    (overdueTransform now t).id = t.id := by
  unfold overdueTransform
  split <;> rfl

/-- The overdue flip keeps the assignee. -/
theorem overdueTransform_assignee (now : Int) (t : Task) :
    (overdueTransform now t).assignee_id = t.assignee_id := by
  unfold overdueTransform
  split <;> rfl

/-- A task that is past its deadline and not terminal lands (as its flipped
image) in the overdue-rows snapshot taken right after update_overdue_tasks. -/
theorem transform_mem_overdue_rows (db : DB) (now : Int) (t : Task)
    (ht : t ∈ db.tasks)
    (hdl : ∃ d, t.deadline = some d ∧ d < now)
    (hst : t.status ≠ "completed" ∧ t.status ≠ "cancelled") :
    mkOverdueRow db.users (overdueTransform now t) ∈
      get_overdue_tasks (update_overdue_tasks db now) now := by
  unfold get_overdue_tasks update_overdue_tasks
  apply List.mem_map_of_mem
  rw [List.mem_filter]
  refine ⟨List.mem_map_of_mem _ ht, ?_⟩
  obtain ⟨d, hd, hlt⟩ := hdl
  unfold overdueTransform
  by_cases hcond : ((match t.deadline with | none => false | some d => decide (d < now))
      && !(["completed", "cancelled", "overdue"].contains t.status)) = true
  · rw [if_pos hcond]
    simp [hd, hlt]
  · rw [if_neg hcond]
    have hB : (["completed", "cancelled", "overdue"].contains t.status) = true := by
      cases hcB : ["completed", "cancelled", "overdue"].contains t.status with
      | true => rfl
      | false =>
        exfalso
        apply hcond
        rw [hd, hcB]
        simp [hlt]
    have hover : t.status = "overdue" := by
      have hmem : t.status ∈ ["completed", "cancelled", "overdue"] :=
        List.mem_of_elem_eq_true hB
      simp only [List.mem_cons, List.mem_singleton] at hmem
      rcases hmem with h | h | h
      · exact absurd h hst.1
      · exact absurd h hst.2
      · simpa using h
    simp [hd, hlt, hover]

/-- Creatability of an overdue row only looks at the assignee column, which
the overdue flip keeps. -/
theorem creatableRow_transform (users : List User) (now : Int) (t : Task) :
    creatableRow users (mkOverdueRow users (overdueTransform now t)) =
      creatableRow users (mkOverdueRow users t) := by
  unfold creatableRow mkOverdueRow
  rw [overdueTransform_assignee]

/-- C2: for an overdue task whose assignee resolves, running the deadline
sweep once creates the (single) deadline notification, and running it any
number of further times in succession finds the persisted existence check
true and never creates another — exactly one deadline alert exists
afterwards. -/
theorem c2_deadline_alert_at_most_once (fmt : Task → String) (db : DB) (now : Int)
    (t : Task) (k : Nat)
    (ht : t ∈ db.tasks)
    (hcnt : countDeadline db t.id = 0)
    (hdl : ∃ d, t.deadline = some d ∧ d < now)
    (hst : t.status ≠ "completed" ∧ t.status ≠ "cancelled")
    (hcr : creatableRow db.users (mkOverdueRow db.users t) = true)
    (hk : 1 ≤ k) :
    countDeadline (sweepN fmt now k db) t.id = 1 := by
  have hrowmem := transform_mem_overdue_rows db now t ht hdl hst
  have hrcr : creatableRow db.users (mkOverdueRow db.users (overdueTransform now t)) = true := by
    rw [creatableRow_transform]
    exact hcr
  have hrid : (mkOverdueRow db.users (overdueTransform now t)).task.id = t.id :=
    overdueTransform_id now t
  have h1 : countDeadline (check_overdue_tasks fmt db now) t.id = 1 := by
    rw [check_overdue_count]
    rw [if_pos ⟨hcnt, mkOverdueRow db.users (overdueTransform now t), hrowmem, hrid, hrcr⟩]
  have hpres : ∀ j (db2 : DB), countDeadline db2 t.id = 1 →
      countDeadline (sweepN fmt now j db2) t.id = 1 := by
    intro j
    induction j with
    | zero => exact fun db2 h => h
    | succ n ihn =>
      intro db2 h
      have hstep : countDeadline (check_overdue_tasks fmt db2 now) t.id = 1 := by
        rw [check_overdue_count]
        rw [if_neg (fun hx => by rw [h] at hx; exact absurd hx.1 (by omega))]
        exact h
      exact ihn _ hstep
  cases k with
  | zero => omega
  | succ n => exact hpres n _ h1

/-- Example database for the C2 witness: one user and one overdue assigned
task, swept twice at now = 1000. -/
def c2db : DB :=
  { users := [⟨1, 100, none, some "A", some "B", "user", true⟩]
    tasks := [⟨1, "t", none, 1, some 1, "new", "medium", some 0, 0, 0, none⟩]
    notifications := []
    history := []
    next_notif_id := 1 }

/-- Witness for C2 at a concrete input: two sweeps, one alert. -/
theorem c2_deadline_alert_at_most_once_witness :
    countDeadline (sweepN (fun _ => "") 1000 2 c2db) 1 = 1 :=
  c2_deadline_alert_at_most_once (fun _ => "") c2db 1000
    ⟨1, "t", none, 1, some 1, "new", "medium", some 0, 0, 0, none⟩ 2
    (by decide) (by decide) ⟨0, by decide, by decide⟩ ⟨by decide, by decide⟩
    (by decide) (by decide)

/-- An overdue row whose assignee join came back empty is never creatable. -/
theorem creatableRow_none (users : List User) (t : Task)
    (h : users.find? (fun v => t.assignee_id == some v.id) = none) :
    creatableRow users (mkOverdueRow users t) = false := by
  unfold creatableRow mkOverdueRow
  rw [h]
  rfl

/-- C9: a deadline notification is only ever created for an overdue task
whose assignee column is truthy and resolves to an existing user (first
conjunct: any change to a task's deadline-notification count during the
sweep exhibits such a row); an overdue task whose assignee is NULL or does
not resolve to a user row has its status flipped to overdue by the sweep,
yet no deadline notification for it exists afterwards. -/
theorem c9_deadline_alert_needs_resolvable_assignee (fmt : Task → String) (db : DB)
    (now : Int) (t : Task)
    (ht : t ∈ db.tasks)
    (hcnt : countDeadline db t.id = 0)
    (hno : ∀ u ∈ db.tasks, u.id = t.id →
      u.assignee_id = none ∨ db.users.find? (fun v => u.assignee_id == some v.id) = none)
    (hdl : ∃ d, t.deadline = some d ∧ d < now)
    (hst : t.status = "new" ∨ t.status = "in_progress") :
    (∀ tid : Nat,
      countDeadline (check_overdue_tasks fmt db now) tid ≠ countDeadline db tid →
      ∃ row ∈ get_overdue_tasks (update_overdue_tasks db now) now,
        row.task.id = tid ∧ ∃ atid, row.assignee_telegram_id = some atid ∧ atid ≠ 0 ∧
          (get_user_by_telegram_id db atid).isSome = true) ∧
    countDeadline (check_overdue_tasks fmt db now) t.id = 0 ∧
    overdueTransform now t ∈ (check_overdue_tasks fmt db now).tasks ∧
    (overdueTransform now t).status = "overdue" := by
  refine ⟨?_, ?_, ?_, ?_⟩
  · intro tid hne
    rw [check_overdue_count] at hne
    by_cases hcond : countDeadline db tid = 0 ∧
        ∃ row ∈ get_overdue_tasks (update_overdue_tasks db now) now,
          row.task.id = tid ∧ creatableRow db.users row = true
    · obtain ⟨_, row, hm, hid, hcr⟩ := hcond
      refine ⟨row, hm, hid, ?_⟩
      unfold creatableRow at hcr
      cases hat : row.assignee_telegram_id with
      | none => rw [hat] at hcr; cases hcr
      | some atid =>
        rw [hat] at hcr
        dsimp only at hcr
        simp only [Bool.and_eq_true, bne_iff_ne] at hcr
        exact ⟨atid, rfl, hcr.1, hcr.2⟩
    · rw [if_neg hcond] at hne
      exact absurd rfl hne
  · rw [check_overdue_count]
    rw [if_neg ?_]
    · exact hcnt
    rintro ⟨_, row, hm, hid, hcr⟩
    unfold get_overdue_tasks update_overdue_tasks at hm
    simp only [List.mem_map, List.mem_filter] at hm
    obtain ⟨t2, ⟨⟨u, hu, rfl⟩, hp⟩, rfl⟩ := hm
    have huid : u.id = t.id := by
      rw [← overdueTransform_id now u]
      exact hid
    have hjoin : db.users.find?
        (fun v => (overdueTransform now u).assignee_id == some v.id) = none := by
      rw [List.find?_eq_none]
      intro v hv
      rw [overdueTransform_assignee]
      rcases hno u hu huid with hass | hfn
      · rw [hass]
        simp
      · exact List.find?_eq_none.mp hfn v hv
    have hfalse := creatableRow_none db.users (overdueTransform now u) hjoin
    rw [hfalse] at hcr
    cases hcr
  · rw [check_overdue_tasks_tasks]
    exact List.mem_map_of_mem _ ht
  · obtain ⟨d, hd, hlt⟩ := hdl
    unfold overdueTransform
    rcases hst with h | h <;> simp [hd, h, hlt]

/-- Example database for the C9 witness: one overdue task whose assignee id
is set but resolves to no user row. -/
def c9db : DB :=
  { users := []
    tasks := [⟨1, "t", none, 1, some 9, "new", "medium", some 0, 0, 0, none⟩]
    notifications := []
    history := []
    next_notif_id := 1 }

/-- Witness for C9 at a concrete input. -/
theorem c9_deadline_alert_needs_resolvable_assignee_witness :
    (∀ tid : Nat,
      countDeadline (check_overdue_tasks (fun _ => "") c9db 1000) tid ≠
        countDeadline c9db tid →
      ∃ row ∈ get_overdue_tasks (update_overdue_tasks c9db 1000) 1000,
        row.task.id = tid ∧ ∃ atid, row.assignee_telegram_id = some atid ∧ atid ≠ 0 ∧
          (get_user_by_telegram_id c9db atid).isSome = true) ∧
    countDeadline (check_overdue_tasks (fun _ => "") c9db 1000) 1 = 0 ∧
    overdueTransform 1000 ⟨1, "t", none, 1, some 9, "new", "medium", some 0, 0, 0, none⟩ ∈
      (check_overdue_tasks (fun _ => "") c9db 1000).tasks ∧
    (overdueTransform 1000 ⟨1, "t", none, 1, some 9, "new", "medium", some 0, 0, 0, none⟩).status
      = "overdue" :=
  c9_deadline_alert_needs_resolvable_assignee (fun _ => "") c9db 1000
    ⟨1, "t", none, 1, some 9, "new", "medium", some 0, 0, 0, none⟩
    (by decide) (by decide) (by decide) ⟨0, by decide, by decide⟩ (Or.inl rfl)

/-- Per-notification effect of mark_notification_sent. -/
def markIfId (nid : Nat) (now : Int) (n : Notification) : Notification :=
  if n.id == nid then { n with is_sent := true, sent_at := some now } else n

/-- mark_notification_sent is the pointwise markIfId map. -/
theorem mark_notification_sent_eq (db : DB) (nid : Nat) (now : Int) :
    mark_notification_sent db nid now =
      { db with notifications := db.notifications.map (markIfId nid now) } := rfl

/-- markIfId keeps every notification id. -/
theorem markIfId_pred (nid : Nat) (now : Int) (j : Nat) (n : Notification) :
    ((markIfId nid now n).id == j) = (n.id == j) := by
  unfold markIfId
  by_cases h : n.id == nid <;> simp [h]

/-- A by-id lookup found element carries that id. -/
theorem notifById_some_id (db : DB) (j : Nat) (n : Notification)
    (h : notifById db j = some n) : n.id = j := by
  unfold notifById at h
  have := List.find?_some h
  simpa using this

/-- By-id lookup after a mark is the mapped lookup. -/
theorem notifById_mark (db : DB) (nid : Nat) (now : Int) (j : Nat) :
    notifById (mark_notification_sent db nid now) j =
      (notifById db j).map (markIfId nid now) := by
  rw [mark_notification_sent_eq]
  unfold notifById
  exact find?_map_preserve (markIfId nid now) _ (markIfId_pred nid now j) db.notifications

/-- Marking a different id leaves a by-id lookup unchanged. -/
theorem notifById_mark_ne (db : DB) (nid : Nat) (now : Int) (j : Nat) (h : nid ≠ j) :
    notifById (mark_notification_sent db nid now) j = notifById db j := by
  rw [notifById_mark]
  cases hf : notifById db j with
  | none => rfl
  | some n =>
    have hid := notifById_some_id db j n hf
    have hne : (n.id == nid) = false := by
      rw [hid]
      simpa using fun hc => h hc.symm
    simp [markIfId, hne]

/-- Marking the looked-up id marks the found notification. -/
theorem notifById_mark_self (db : DB) (now : Int) (j : Nat) :
    notifById (mark_notification_sent db j now) j =
      (notifById db j).map (fun n => { n with is_sent := true, sent_at := some now }) := by
  rw [notifById_mark]
  cases hf : notifById db j with
  | none => rfl
  | some n =>
    have hid := notifById_some_id db j n hf
    simp [markIfId, hid]

/-- Effect of the whole drain walk on a by-id lookup: the notification is
marked sent exactly when some walked row with its id was delivered, and is
untouched otherwise. -/
theorem drain_notifById (sendOk : PendingRow → Bool) (now : Int) (rows : List PendingRow)
    (db : DB) (j : Nat) :
    notifById (rows.foldl (fun db row =>
      if sendOk row then mark_notification_sent db row.notif.id now else db) db) j =
      if ∃ r ∈ rows, sendOk r = true ∧ r.notif.id = j then
        (notifById db j).map (fun n => { n with is_sent := true, sent_at := some now })
      else notifById db j := by
  induction rows generalizing db with
  | nil => simp
  | cons r rest ih =>
    rw [List.foldl_cons, ih]
    by_cases hr : sendOk r = true ∧ r.notif.id = j
    · have hstep : (if sendOk r then mark_notification_sent db r.notif.id now else db)
          = mark_notification_sent db j now := by
        rw [hr.2, if_pos hr.1]
      rw [hstep]
      by_cases hrest : ∃ r2 ∈ rest, sendOk r2 = true ∧ r2.notif.id = j
      · rw [if_pos hrest, notifById_mark_self]
        rw [if_pos ⟨r, List.mem_cons_self r rest, hr⟩]
        cases hf : notifById db j with
        | none => rfl
        | some n => rfl
      · rw [if_neg hrest, notifById_mark_self]
        rw [if_pos ⟨r, List.mem_cons_self r rest, hr⟩]
    · have hstep : notifById
          (if sendOk r then mark_notification_sent db r.notif.id now else db) j
          = notifById db j := by
        by_cases hs : sendOk r = true
        · rw [if_pos hs]
          exact notifById_mark_ne db r.notif.id now j (fun he => hr ⟨hs, he⟩)
        · rw [if_neg hs]
      rw [hstep]
      by_cases hrest : ∃ r2 ∈ rest, sendOk r2 = true ∧ r2.notif.id = j
      · obtain ⟨r2, hm, h2⟩ := hrest
        rw [if_pos ⟨r2, hm, h2⟩, if_pos ⟨r2, List.mem_cons_of_mem r hm, h2⟩]
      · have hcons : ¬∃ r2 ∈ r :: rest, sendOk r2 = true ∧ r2.notif.id = j := by
          rintro ⟨r2, hm, h2⟩
          rcases List.mem_cons.mp hm with rfl | hm2
          · exact hr h2
          · exact hrest ⟨r2, hm2, h2⟩
        rw [if_neg hrest, if_neg hcons]

/-- The drain walk never changes the users table. -/
theorem drain_users (sendOk : PendingRow → Bool) (now : Int) (rows : List PendingRow)
    (db : DB) :
    (rows.foldl (fun db row =>
      if sendOk row then mark_notification_sent db row.notif.id now else db) db).users
      = db.users := by
  induction rows generalizing db with
  | nil => rfl
  | cons r rest ih =>
    rw [List.foldl_cons, ih]
    by_cases hs : sendOk r = true
    · rw [if_pos hs]
      rfl
    · rw [if_neg hs]

/-- The drain walk never changes the tasks table. -/
theorem drain_tasks (sendOk : PendingRow → Bool) (now : Int) (rows : List PendingRow)
    (db : DB) :
    (rows.foldl (fun db row =>
      if sendOk row then mark_notification_sent db row.notif.id now else db) db).tasks
      = db.tasks := by
  induction rows generalizing db with
  | nil => rfl
  | cons r rest ih =>
    rw [List.foldl_cons, ih]
    by_cases hs : sendOk r = true
    · rw [if_pos hs]
      rfl
    · rw [if_neg hs]

/-- A notification whose id is never successfully delivered survives the
drain walk unchanged. -/
theorem drain_mem_notif_untouched (sendOk : PendingRow → Bool) (now : Int)
    (rows : List PendingRow) (db : DB) (n : Notification)
    (h : ∀ r ∈ rows, sendOk r = true → r.notif.id ≠ n.id)
    (hn : n ∈ db.notifications) :
    n ∈ (rows.foldl (fun db row =>
      if sendOk row then mark_notification_sent db row.notif.id now else db) db).notifications := by
  induction rows generalizing db with
  | nil => exact hn
  | cons r rest ih =>
    rw [List.foldl_cons]
    apply ih _ (fun r2 hm => h r2 (List.mem_cons_of_mem r hm))
    by_cases hs : sendOk r = true
    · rw [if_pos hs, mark_notification_sent_eq]
      have hne : r.notif.id ≠ n.id := h r (List.mem_cons_self r rest) hs
      have : markIfId r.notif.id now n = n := by
        unfold markIfId
        rw [if_neg (by simpa using fun hc => hne hc.symm)]
      rw [← this]
      exact List.mem_map_of_mem _ hn
    · rw [if_neg hs]
      exact hn

/-- What a produced pending row says about its source notification. -/
theorem pendingRowOf_notif (db : DB) (now : Int) (n : Notification) (row : PendingRow)
    (h : pendingRowOf db now n = some row) :
    row.notif = n ∧ n.is_sent = false ∧ n.scheduled_at ≤ now := by
  unfold pendingRowOf at h
  cases hu : db.users.find? (fun u => u.id == n.user_id) with
  | none => rw [hu] at h; cases h
  | some u =>
    cases htk : db.tasks.find? (fun t => t.id == n.task_id) with
    | none => rw [hu, htk] at h; cases h
    | some t =>
      rw [hu, htk] at h
      dsimp only at h
      by_cases hcond : (!n.is_sent && decide (n.scheduled_at ≤ now)) = true
      · rw [if_pos hcond] at h
        rw [Option.some.injEq] at h
        subst h
        simp only [Bool.and_eq_true, Bool.not_eq_true', decide_eq_true_eq] at hcond
        exact ⟨rfl, hcond.1, hcond.2⟩
      · rw [if_neg hcond] at h
        cases h

/-- pendingRowOf only reads the users and tasks tables. -/
theorem pendingRowOf_congr (db db2 : DB) (now : Int) (hu : db2.users = db.users)
    (ht : db2.tasks = db.tasks) (n : Notification) :
    pendingRowOf db2 now n = pendingRowOf db now n := by
  unfold pendingRowOf
  rw [hu, ht]

/-- With pairwise-distinct ids, find?-by-id on a stored notification returns
exactly it. -/
theorem find?_id_of_nodup (ns : List Notification) (n : Notification)
    (hnd : (ns.map (fun m => m.id)).Nodup) (hn : n ∈ ns) :
    ns.find? (fun m => m.id == n.id) = some n := by
  induction ns with
  | nil => cases hn
  | cons h t iht =>
    rw [List.map_cons, List.nodup_cons] at hnd
    rcases List.mem_cons.mp hn with rfl | hmem
    · rw [List.find?_cons_of_pos]
      simp
    · by_cases hid : h.id = n.id
      · exfalso
        apply hnd.1
        rw [hid]
        exact List.mem_map_of_mem _ hmem
      · rw [List.find?_cons_of_neg]
        · exact iht hnd.2 hmem
        · simpa using hid

/-- With pairwise-distinct notification ids, the by-id lookup of a stored
notification returns exactly it. -/
theorem notifById_of_mem (db : DB) (n : Notification)
    (hnd : (db.notifications.map (fun m => m.id)).Nodup) (hn : n ∈ db.notifications) :
    notifById db n.id = some n :=
  find?_id_of_nodup db.notifications n hnd hn

/-- C8: in one drain pass over the pending notifications, delivery outcomes
are isolated per item — every successfully delivered notification is marked
sent, while a failed one is left with is_sent still false (so the next tick's
pending query selects it again), regardless of what happened to the other
rows of the same pass. -/
theorem c8_drain_failure_isolation (sendOk : PendingRow → Bool) (db : DB) (now : Int)
    (hnd : (db.notifications.map (fun m => m.id)).Nodup)
    (row : PendingRow) (hrow : row ∈ get_pending_notifications db now) :
    (sendOk row = true →
      notifById (check_and_send_notifications sendOk db now) row.notif.id =
        some { row.notif with is_sent := true, sent_at := some now }) ∧
    (sendOk row = false →
      notifById (check_and_send_notifications sendOk db now) row.notif.id = some row.notif ∧
      row ∈ get_pending_notifications (check_and_send_notifications sendOk db now) now) := by
  have hmem0 : row ∈ db.notifications.filterMap (pendingRowOf db now) := by
    unfold get_pending_notifications at hrow
    exact List.mem_mergeSort.mp hrow
  obtain ⟨n, hnmem, hfn⟩ := List.mem_filterMap.mp hmem0
  obtain ⟨hrn, hunsent, hsched⟩ := pendingRowOf_notif db now n row hfn
  have hrowmem : row.notif ∈ db.notifications := by
    rw [hrn]
    exact hnmem
  have hbyid : notifById db row.notif.id = some row.notif := by
    rw [hrn]
    exact notifById_of_mem db n hnd hnmem
  constructor
  · intro hs
    unfold check_and_send_notifications
    rw [drain_notifById, if_pos ⟨row, hrow, hs, rfl⟩, hbyid]
    rfl
  · intro hs
    have hnosucc : ¬∃ r ∈ get_pending_notifications db now,
        sendOk r = true ∧ r.notif.id = row.notif.id := by
      rintro ⟨r, hm, hsr, hid⟩
      have hmem0r : r ∈ db.notifications.filterMap (pendingRowOf db now) := by
        unfold get_pending_notifications at hm
        exact List.mem_mergeSort.mp hm
      obtain ⟨n2, hn2mem, hfn2⟩ := List.mem_filterMap.mp hmem0r
      have hrn2 := (pendingRowOf_notif db now n2 r hfn2).1
      have hideq : n2.id = n.id := by
        rw [← hrn2, ← hrn]
        exact hid
      have hn2n : n2 = n := List.inj_on_of_nodup_map hnd hn2mem hnmem hideq
      rw [hn2n, hfn] at hfn2
      have hreq : row = r := by
        rw [Option.some.injEq] at hfn2
        exact hfn2
      rw [← hreq] at hsr
      rw [hs] at hsr
      cases hsr
    refine ⟨?_, ?_⟩
    · unfold check_and_send_notifications
      rw [drain_notifById, if_neg hnosucc, hbyid]
    · have husers : (check_and_send_notifications sendOk db now).users = db.users :=
        drain_users sendOk now (get_pending_notifications db now) db
      have htasks : (check_and_send_notifications sendOk db now).tasks = db.tasks :=
        drain_tasks sendOk now (get_pending_notifications db now) db
      have hnotif2 : row.notif ∈ (check_and_send_notifications sendOk db now).notifications := by
        unfold check_and_send_notifications
        apply drain_mem_notif_untouched
        · intro r hm hsr heq
          exact hnosucc ⟨r, hm, hsr, heq⟩
        · exact hrowmem
      unfold get_pending_notifications
      rw [List.mem_mergeSort]
      apply List.mem_filterMap.mpr
      refine ⟨row.notif, hnotif2, ?_⟩
      rw [pendingRowOf_congr db (check_and_send_notifications sendOk db now) now husers htasks]
      rw [hrn]
      exact hfn

/-- Example database for the C8 witness: two due unsent notifications for
the same task. -/
def c8db : DB :=
  { users := [⟨1, 100, none, some "A", some "B", "user", true⟩]
    tasks := [⟨1, "t", none, 1, some 1, "new", "medium", none, 0, 0, none⟩]
    notifications := [⟨1, 1, 1, "reminder", "m", false, 0, none⟩,
      ⟨2, 1, 1, "reminder", "m2", false, 0, none⟩]
    history := []
    next_notif_id := 3 }

/-- The pending row of notification 1 in c8db. -/
def c8row : PendingRow := ⟨⟨1, 1, 1, "reminder", "m", false, 0, none⟩, 100, "t"⟩

/-- Delivery oracle for the C8 witness: notification 1 fails, 2 succeeds. -/
def c8send : PendingRow → Bool := fun r => r.notif.id == 2

/-- Witness for C8 at a concrete input. -/
theorem c8_drain_failure_isolation_witness :
    (c8send c8row = true →
      notifById (check_and_send_notifications c8send c8db 5) c8row.notif.id =
        some { c8row.notif with is_sent := true, sent_at := some 5 }) ∧
    (c8send c8row = false →
      notifById (check_and_send_notifications c8send c8db 5) c8row.notif.id =
        some c8row.notif ∧
      c8row ∈ get_pending_notifications (check_and_send_notifications c8send c8db 5) 5) :=
  c8_drain_failure_isolation c8send c8db 5 (by decide) c8row
    (List.mem_mergeSort.mpr (by decide))

end TMBot
